import Mathlib

/-!
Verification development for the cashd script-validation core.

The embedding below follows the repository sources:
  * `src/script/script_error.cpp` — error taxonomy and its string table;
  * `src/script/interpreter.h` — signature-checker interface, `SigVersion`,
    the `EvalScript` / `VerifyScript` overload structure;
  * `src/test/sighash_bip341_tests.cpp` — behaviour of code-separator
    tracking and of `PrecomputedTransactionData::FromCoinsView`;
  * `src/pow/test/aserti32d_tests.cpp` — behaviour of `CalculateASERT`.

Function bodies that the repository does not ship under `src/` (the
interpreter loop, the sighash computation, the precomputation cache and
the ASERT difficulty calculation) are modelled from the natural-language
specification; each such definition carries a doc comment starting with
`Modelled from the spec:` naming what is missing.
-/

/-- Error taxonomy of the script engine, transcribed from the cases of the
`switch` in `ScriptErrorString` (src/script/script_error.cpp). -/
inductive ScriptError where
  | OK
  | EVAL_FALSE
  | VERIFY
  | EQUALVERIFY
  | CHECKMULTISIGVERIFY
  | CHECKSIGVERIFY
  | CHECKDATASIGVERIFY
  | NUMEQUALVERIFY
  | SCRIPT_SIZE
  | PUSH_SIZE
  | OP_COUNT
  | STACK_SIZE
  | SIG_COUNT
  | PUBKEY_COUNT
  | INPUT_SIGCHECKS
  | INVALID_OPERAND_SIZE
  | INVALID_NUMBER_RANGE
  | IMPOSSIBLE_ENCODING
  | INVALID_SPLIT_RANGE
  | INVALID_BIT_COUNT
  | BAD_OPCODE
  | DISABLED_OPCODE
  | INVALID_STACK_OPERATION
  | INVALID_ALTSTACK_OPERATION
  | OP_RETURN
  | UNBALANCED_CONDITIONAL
  | DIV_BY_ZERO
  | MOD_BY_ZERO
  | INVALID_BITFIELD_SIZE
  | INVALID_BIT_RANGE
  | NEGATIVE_LOCKTIME
  | UNSATISFIED_LOCKTIME
  | SIG_HASHTYPE
  | SIG_DER
  | MINIMALDATA
  | SIG_PUSHONLY
  | SIG_HIGH_S
  | MINIMALIF
  | SIG_NULLFAIL
  | SIG_BADLENGTH
  | SIG_NONSCHNORR
  | DISCOURAGE_UPGRADABLE_NOPS
  | DISCOURAGE_UPGRADABLE_WITNESS_PROGRAM
  | DISCOURAGE_UPGRADABLE_TAPROOT_VERSION
  | DISCOURAGE_OP_SUCCESS
  | DISCOURAGE_UPGRADABLE_PUBKEYTYPE
  | PUBKEYTYPE
  | CLEANSTACK
  | ILLEGAL_FORKID
  | MUST_USE_FORKID
  | INVALID_NUM2BIN_SIZE
  | SIGCHECKS_LIMIT_EXCEEDED
  | TAPROOT_WRONG_CONTROL_SIZE
  | TAPROOT_PROGRAM_MISMATCH
  | TAPROOT_DISABLED_ANNEX
  | TAPROOT_INVALID_SIG
  | OP_CODESEPARATOR
  | SIG_FINDANDDELETE
  | UNKNOWN
  | ERROR_COUNT
  deriving DecidableEq, Fintype, Repr

/-- Human-readable description of a script error, transcribed case by case
from `ScriptErrorString` in src/script/script_error.cpp.  The C++ `switch`
falls through to `"unknown error"` for `UNKNOWN`, `ERROR_COUNT` and the
`default` label. -/
def ScriptErrorString : ScriptError → String
  | .OK => "No error"
  | .EVAL_FALSE =>
      "Script evaluated without error but finished with a false/empty top stack element"
  | .VERIFY => "Script failed an OP_VERIFY operation"
  | .EQUALVERIFY => "Script failed an OP_EQUALVERIFY operation"
  | .CHECKMULTISIGVERIFY => "Script failed an OP_CHECKMULTISIGVERIFY operation"
  | .CHECKSIGVERIFY => "Script failed an OP_CHECKSIGVERIFY operation"
  | .CHECKDATASIGVERIFY => "Script failed an OP_CHECKDATASIGVERIFY operation"
  | .NUMEQUALVERIFY => "Script failed an OP_NUMEQUALVERIFY operation"
  | .SCRIPT_SIZE => "Script is too big"
  | .PUSH_SIZE => "Push value size limit exceeded"
  | .OP_COUNT => "Operation limit exceeded"
  | .STACK_SIZE => "Stack size limit exceeded"
  | .SIG_COUNT => "Signature count negative or greater than pubkey count"
  | .PUBKEY_COUNT => "Pubkey count negative or limit exceeded"
  | .INPUT_SIGCHECKS => "Input SigChecks limit exceeded"
  | .INVALID_OPERAND_SIZE => "Invalid operand size"
  | .INVALID_NUMBER_RANGE =>
      "Given operand is not a number within the valid range [-2^31...2^31]"
  | .IMPOSSIBLE_ENCODING => "The requested encoding is impossible to satisfy"
  | .INVALID_SPLIT_RANGE => "Invalid OP_SPLIT range"
  | .INVALID_BIT_COUNT => "Invalid number of bit set in OP_CHECKMULTISIG"
  | .BAD_OPCODE => "Opcode missing or not understood"
  | .DISABLED_OPCODE => "Attempted to use a disabled opcode"
  | .INVALID_STACK_OPERATION => "Operation not valid with the current stack size"
  | .INVALID_ALTSTACK_OPERATION =>
      "Operation not valid with the current altstack size"
  | .OP_RETURN => "OP_RETURN was encountered"
  | .UNBALANCED_CONDITIONAL => "Invalid OP_IF construction"
  | .DIV_BY_ZERO => "Division by zero error"
  | .MOD_BY_ZERO => "Modulo by zero error"
  | .INVALID_BITFIELD_SIZE => "Bitfield of unexpected size error"
  | .INVALID_BIT_RANGE => "Bitfield's bit out of the expected range"
  | .NEGATIVE_LOCKTIME => "Negative locktime"
  | .UNSATISFIED_LOCKTIME => "Locktime requirement not satisfied"
  | .SIG_HASHTYPE => "Signature hash type missing or not understood"
  | .SIG_DER => "Non-canonical DER signature"
  | .MINIMALDATA => "Data push larger than necessary"
  | .SIG_PUSHONLY => "Only push operators allowed in signatures"
  | .SIG_HIGH_S => "Non-canonical signature: S value is unnecessarily high"
  | .MINIMALIF => "OP_IF/NOTIF argument must be minimal"
  | .SIG_NULLFAIL => "Signature must be zero for failed CHECK(MULTI)SIG operation"
  | .SIG_BADLENGTH => "Signature cannot be 65 bytes in CHECKMULTISIG"
  | .SIG_NONSCHNORR => "Only Schnorr signatures allowed in this operation"
  | .DISCOURAGE_UPGRADABLE_NOPS => "NOPx reserved for soft-fork upgrades"
  | .DISCOURAGE_UPGRADABLE_WITNESS_PROGRAM =>
      "Witness version reserved for soft-fork upgrades"
  | .DISCOURAGE_UPGRADABLE_TAPROOT_VERSION =>
      "Taproot version reserved for soft-fork upgrades"
  | .DISCOURAGE_OP_SUCCESS => "OP_SUCCESSx reserved for soft-fork upgrades"
  | .DISCOURAGE_UPGRADABLE_PUBKEYTYPE =>
      "Public key version reserved for soft-fork upgrades"
  | .PUBKEYTYPE => "Public key is neither compressed or uncompressed"
  | .CLEANSTACK => "Extra items left on stack after execution"
  | .ILLEGAL_FORKID => "Illegal use of SIGHASH_FORKID"
  | .MUST_USE_FORKID => "Signature must use SIGHASH_FORKID"
  | .INVALID_NUM2BIN_SIZE => "OP_NUM2BIN size limit exceeded"
  | .SIGCHECKS_LIMIT_EXCEEDED => "Validation resources exceeded (SigChecks)"
  | .TAPROOT_WRONG_CONTROL_SIZE => "Invalid Taproot control block size"
  | .TAPROOT_PROGRAM_MISMATCH => "Taproot program pubkey mismatch"
  | .TAPROOT_DISABLED_ANNEX => "Taproot annex disabled"
  | .TAPROOT_INVALID_SIG => "Taproot key spend failed"
  | .OP_CODESEPARATOR => "Using OP_CODESEPARATOR in non-witness script"
  | .SIG_FINDANDDELETE => "Signature is found in scriptCode"
  | .UNKNOWN => "unknown error"
  | .ERROR_COUNT => "unknown error"

/-- The values of the taxonomy that denote an enumerated failure: everything
except `OK` and the two catch-all members `UNKNOWN` / `ERROR_COUNT`, which
the C++ switch sends to its shared `default` return. -/
def ScriptError.isEnumeratedFailure (e : ScriptError) : Bool :=
  e != ScriptError.OK && e != ScriptError.UNKNOWN && e != ScriptError.ERROR_COUNT

/-! ## Script opcodes and flags -/

/-- Opcode byte values used by the modelled interpreter subset (standard
Bitcoin-script encoding, as produced by `CScript` in the test suite). -/
def OP_0 : Nat := 0x00

def OP_PUSHDATA1 : Nat := 0x4c

def OP_PUSHDATA2 : Nat := 0x4d

def OP_PUSHDATA4 : Nat := 0x4e

def OP_1NEGATE : Nat := 0x4f

def OP_1 : Nat := 0x51

def OP_16 : Nat := 0x60

def OP_NOP : Nat := 0x61

def OP_IF : Nat := 0x63

def OP_NOTIF : Nat := 0x64

def OP_ELSE : Nat := 0x67

def OP_ENDIF : Nat := 0x68

def OP_CODESEPARATOR : Nat := 0xab

def OP_CHECKSIG : Nat := 0xac

def OP_NOP1 : Nat := 0xb0

def OP_NOP10 : Nat := 0xb9

/-- Maximum size of a single stack element, in bytes. -/
def MAX_SCRIPT_ELEMENT_SIZE : Nat := 520

/-- Maximum script size, in bytes. -/
def MAX_SCRIPT_SIZE : Nat := 10000

/-- Modelled from the spec: the flag constants of script_flags.h are not under
src/; the spec (sections 6 and 8) names the flags and requires them to be
independently togglable bits, so each gets its own bit here.  The concrete
bit positions are a choice of this model. -/
def SCRIPT_VERIFY_NONE : Nat := 0

def SCRIPT_VERIFY_MINIMALDATA : Nat := 1

def SCRIPT_VERIFY_DISCOURAGE_UPGRADABLE_NOPS : Nat := 2

def SCRIPT_VERIFY_CLEANSTACK : Nat := 4

def SCRIPT_VERIFY_MINIMALIF : Nat := 8

def SCRIPT_VERIFY_NULLFAIL : Nat := 16

def SCRIPT_ENABLE_SIGHASH_FORKID : Nat := 32

/-- Union of the modelled flag bits, standing in for the
`STANDARD_SCRIPT_VERIFY_FLAGS` constant the test suite iterates over. -/
def STANDARD_SCRIPT_VERIFY_FLAGS : Nat := 63

/-- Tests whether a flag bit (or any bit of a mask) is set. -/
def hasFlag (flags f : Nat) : Bool := flags &&& f != 0

/-- Commitment version selector, from src/script/interpreter.h lines 24-29. -/
inductive SigVersion where
  | BASE
  | TAPROOT
  | TAPSCRIPT
  deriving DecidableEq, Repr

/-! ## Signature checker -/

/-- Capability set of a signature checker, following the virtual interface of
`BaseSignatureChecker` in src/script/interpreter.h lines 49-76 (the spec's
design note models the virtual hierarchy as data).  `CheckSig` receives the
signature, the public key, the script-code slice and the flag word, exactly
as in the header. -/
structure SignatureChecker where
  CheckSig : List Nat → List Nat → List Nat → Nat → Bool
  CheckLockTime : Int → Bool
  CheckSequence : Int → Bool
  CheckSigTaproot : List Nat → List Nat → SigVersion → Bool

/-- The no-op checker: the base-class bodies in src/script/interpreter.h
lines 55-73 all `return false`. -/
def BaseSignatureChecker : SignatureChecker where
  CheckSig := fun _ _ _ _ => false
  CheckLockTime := fun _ => false
  CheckSequence := fun _ => false
  CheckSigTaproot := fun _ _ _ => false

/-! ## Execution state -/

/-- Side-Channel Execution Data.  The struct is declared at
src/script/interpreter.h line 31; its observable field
`m_codeseparator_pos` is fixed by the test suite
(src/test/sighash_bip341_tests.cpp), with `0xffffffff` as the
"no code-separator executed" sentinel. -/
structure ScriptExecutionData where
  m_codeseparator_pos : Nat := 0xffffffff
  deriving DecidableEq, Repr

/-- Execution metrics; the spec's Resource Counters include the accumulated
signature-check count, which is the field the claims observe. -/
structure ScriptExecutionMetrics where
  nSigChecks : Nat := 0
  deriving DecidableEq, Repr

/-- Full interpreter state threaded through the opcode loop.  `csTrace` is
ghost instrumentation of this model (not a field of the C++ state): it
records, for every code-separator opcode actually executed, the pair
(opcode index, byte offset), so that theorems can speak about "the last
code-separator executed on the taken branch". -/
structure ExecState where
  stack : List (List Nat)
  vfExec : List Bool
  execdata : ScriptExecutionData
  metrics : ScriptExecutionMetrics
  opcodeIdx : Nat
  pc : Nat
  scriptCodeStart : Nat
  csTrace : List (Nat × Nat)
  deriving DecidableEq, Repr

/-- A decoded script element: either a data push (with the opcode byte that
introduced it) or a bare opcode. -/
inductive ParsedOp where
  | pushdata (opcodeByte : Nat) (data : List Nat)
  | op (b : Nat)
  deriving DecidableEq, Repr

deriving instance DecidableEq for Except

/-- Little-endian 16-bit read. -/
def le16 (b0 b1 : Nat) : Nat := b0 + 256 * b1

/-- Little-endian 32-bit read. -/
def le32 (b0 b1 b2 b3 : Nat) : Nat := b0 + 256 * (b1 + 256 * (b2 + 256 * b3))

/-- Decodes the element at the head of a script, following the standard
`GetOp` encoding: direct pushes for lengths 1..75, `OP_PUSHDATA1/2/4`
length-prefixed pushes, everything else a bare opcode.  Returns the decoded
element, the number of bytes consumed and the remaining bytes; `none` when
the push runs past the end of the script (which `EvalScript` reports as
`BAD_OPCODE`). -/
def parseOp : List Nat → Option (ParsedOp × Nat × List Nat)
  | [] => none
  | b :: rest =>
    if b = 0 then some (.pushdata b [], 1, rest)
    else if b ≤ 75 then
      if rest.length < b then none
      else some (.pushdata b (rest.take b), 1 + b, rest.drop b)
    else if b = OP_PUSHDATA1 then
      match rest with
      | n :: rest2 =>
        if rest2.length < n then none
        else some (.pushdata b (rest2.take n), 2 + n, rest2.drop n)
      | [] => none
    else if b = OP_PUSHDATA2 then
      match rest with
      | n0 :: n1 :: rest2 =>
        let n := le16 n0 n1
        if rest2.length < n then none
        else some (.pushdata b (rest2.take n), 3 + n, rest2.drop n)
      | _ => none
    else if b = OP_PUSHDATA4 then
      match rest with
      | n0 :: n1 :: n2 :: n3 :: rest2 =>
        let n := le32 n0 n1 n2 n3
        if rest2.length < n then none
        else some (.pushdata b (rest2.take n), 5 + n, rest2.drop n)
      | _ => none
    else some (.op b, 1, rest)

/-- Truthiness of a stack element: false iff every byte is zero, where the
last byte may also be `0x80` (negative zero). -/
def CastToBool : List Nat → Bool
  | [] => false
  | [b] => b != 0 && b != 0x80
  | b :: rest => b != 0 || CastToBool rest

/-- Whether `data` was pushed by the minimal possible push operation given
the opcode byte that introduced it (the `MINIMALDATA` rule). -/
def CheckMinimalPush (data : List Nat) (opcode : Nat) : Bool :=
  if data.length = 0 then opcode == OP_0
  else if data.length == 1 && 1 ≤ data.headD 0 && data.headD 0 ≤ 16 then false
  else if data.length == 1 && data.headD 0 == 0x81 then false
  else if data.length ≤ 75 then opcode == data.length
  else if data.length ≤ 255 then opcode == OP_PUSHDATA1
  else if data.length ≤ 65535 then opcode == OP_PUSHDATA2
  else true

/-! ## The interpreter -/

/-- Handler for a data push: enforces the element-size ceiling and, when the
push executes, the minimal-push rule under its flag. -/
def execPushdata (flags : Nat) (opb : Nat) (data : List Nat) (st : ExecState) :
    Except ScriptError ExecState :=
  if data.length > MAX_SCRIPT_ELEMENT_SIZE then .error .PUSH_SIZE
  else if st.vfExec.all (fun c => c) then
    if hasFlag flags SCRIPT_VERIFY_MINIMALDATA && !CheckMinimalPush data opb then
      .error .MINIMALDATA
    else .ok { st with stack := data :: st.stack }
  else .ok st

/-- Handler for an executed upgradable no-op (`OP_NOP1`, `OP_NOP4`..`OP_NOP10`):
a no-op unless the discourage flag is set. -/
def execUpgradableNop (flags : Nat) (st : ExecState) : Except ScriptError ExecState :=
  if hasFlag flags SCRIPT_VERIFY_DISCOURAGE_UPGRADABLE_NOPS then
    .error .DISCOURAGE_UPGRADABLE_NOPS
  else .ok st

/-- Handler for `OP_IF` / `OP_NOTIF`: when executing, pops the condition
(enforcing minimal-if under its flag) and pushes the branch guard; when
skipped, pushes an unconditionally false guard. -/
def execCondIf (flags : Nat) (b : Nat) (st : ExecState) : Except ScriptError ExecState :=
  if st.vfExec.all (fun c => c) then
    if st.stack.length < 1 then .error .UNBALANCED_CONDITIONAL
    else
      let top := st.stack.headD []
      if hasFlag flags SCRIPT_VERIFY_MINIMALIF && !(top == [] || top == [1]) then
        .error .MINIMALIF
      else
        let fValue := if b = OP_NOTIF then !CastToBool top else CastToBool top
        .ok { st with stack := st.stack.tail, vfExec := fValue :: st.vfExec }
  else .ok { st with vfExec := false :: st.vfExec }

/-- Handler for `OP_ELSE`: toggles the innermost branch guard. -/
def execElse (st : ExecState) : Except ScriptError ExecState :=
  if st.vfExec.isEmpty then .error .UNBALANCED_CONDITIONAL
  else .ok { st with vfExec := (!st.vfExec.headD false) :: st.vfExec.tail }

/-- Handler for `OP_ENDIF`: pops the innermost branch guard. -/
def execEndif (st : ExecState) : Except ScriptError ExecState :=
  if st.vfExec.isEmpty then .error .UNBALANCED_CONDITIONAL
  else .ok { st with vfExec := st.vfExec.tail }

/-- Handler for an executed `OP_CODESEPARATOR`: overwrites the side-channel
record with the opcode's own position and starts a new script-code slice
(and appends to the ghost trace). -/
def execCodesep (st : ExecState) : Except ScriptError ExecState :=
  .ok { st with
        execdata := { st.execdata with m_codeseparator_pos := st.opcodeIdx },
        scriptCodeStart := st.pc + 1,
        csTrace := st.csTrace ++ [(st.opcodeIdx, st.pc)] }

/-- Handler for an executed `OP_CHECKSIG`: delegates to the checker with the
script-code slice bounded by the last executed code-separator; a successful
check increments the sig-check counter, and exceeding the configured ceiling
fails with `SIGCHECKS_LIMIT_EXCEEDED`; a failed check with a non-empty
signature violates `NULLFAIL` when that flag is set. -/
def execChecksig (script : List Nat) (flags : Nat) (checker : SignatureChecker)
    (sigChecksLimit : Nat) (st : ExecState) : Except ScriptError ExecState :=
  if st.stack.length < 2 then .error .INVALID_STACK_OPERATION
  else
    let pubkey := st.stack.headD []
    let sig := st.stack.tail.headD []
    let rest := st.stack.tail.tail
    let scriptCode := script.drop st.scriptCodeStart
    let success := checker.CheckSig sig pubkey scriptCode flags
    if success then
      if sigChecksLimit < st.metrics.nSigChecks + 1 then
        .error .SIGCHECKS_LIMIT_EXCEEDED
      else
        .ok { st with
              stack := [1] :: rest
              metrics := { st.metrics with
                           nSigChecks := st.metrics.nSigChecks + 1 } }
    else if hasFlag flags SCRIPT_VERIFY_NULLFAIL && sig != [] then
      .error .SIG_NULLFAIL
    else .ok { st with stack := [] :: rest }

/-- Modelled from the spec: the body of `EvalScript` (the opcode loop) is not
under src/, only its declaration in src/script/interpreter.h.  This models a
single decoded element of the loop, following spec section 4.1, dispatching
to the handlers above.  The modelled opcode subset is: data pushes,
`OP_0`..`OP_16`, `OP_1NEGATE`, `OP_NOP`, the upgradable no-ops
`OP_NOP1`/`OP_NOP4`..`OP_NOP10`, the conditional family
`OP_IF`/`OP_NOTIF`/`OP_ELSE`/`OP_ENDIF`, `OP_CODESEPARATOR`, and
`OP_CHECKSIG`; every other opcode is outside the excerpt and is treated as
not understood (`BAD_OPCODE` when it would execute).  Ops are skipped inside
a false conditional branch, except that the conditional family itself always
executes. -/
def execOp (script : List Nat) (flags : Nat) (checker : SignatureChecker)
    (sigChecksLimit : Nat) (p : ParsedOp) (st : ExecState) :
    Except ScriptError ExecState :=
  match p with
  | .pushdata opb data => execPushdata flags opb data st
  | .op b =>
    let fExec := st.vfExec.all (fun c => c)
    if !fExec && !(decide (OP_IF ≤ b) && decide (b ≤ OP_ENDIF)) then .ok st
    else if b = OP_1NEGATE then .ok { st with stack := [0x81] :: st.stack }
    else if OP_1 ≤ b ∧ b ≤ OP_16 then .ok { st with stack := [b - 0x50] :: st.stack }
    else if b = OP_NOP then .ok st
    else if (OP_NOP1 ≤ b ∧ b ≤ OP_NOP10) ∧ b ≠ 0xb1 ∧ b ≠ 0xb2 then
      execUpgradableNop flags st
    else if b = OP_IF ∨ b = OP_NOTIF then execCondIf flags b st
    else if b = OP_ELSE then execElse st
    else if b = OP_ENDIF then execEndif st
    else if b = OP_CODESEPARATOR then execCodesep st
    else if b = OP_CHECKSIG then execChecksig script flags checker sigChecksLimit st
    else .error .BAD_OPCODE

/-- Modelled from the spec: the main loop of `EvalScript` (body not under
src/).  Decodes elements left to right, executes each via `execOp`, then
advances the byte offset and the opcode counter; at end of script an
unterminated conditional is `UNBALANCED_CONDITIONAL` (spec 4.1,
"Termination").  The fuel argument only bounds recursion; one unit is spent
per decoded element, and every element consumes at least one byte, so
`script.length + 1` fuel is always sufficient. -/
def evalOps (script : List Nat) (flags : Nat) (checker : SignatureChecker)
    (sigChecksLimit : Nat) : Nat → List Nat → ExecState → Except ScriptError ExecState
  | _, [], st => if st.vfExec.isEmpty then .ok st else .error .UNBALANCED_CONDITIONAL
  | 0, _ :: _, _ => .error .UNKNOWN
  | fuel + 1, b :: bs, st =>
    match parseOp (b :: bs) with
    | none => .error .BAD_OPCODE
    | some (p, consumed, rest) =>
      match execOp script flags checker sigChecksLimit p st with
      | .error e => .error e
      | .ok st' =>
        evalOps script flags checker sigChecksLimit fuel rest
          { st' with opcodeIdx := st'.opcodeIdx + 1, pc := st'.pc + consumed }

/-- Initial interpreter state for one `EvalScript` call: the side-channel
code-separator position starts at the `0xffffffff` sentinel (the test suite
requires this value whenever no code-separator executes). -/
def initialState (stack : List (List Nat)) (execdata : ScriptExecutionData)
    (metrics : ScriptExecutionMetrics) : ExecState :=
  { stack := stack
    vfExec := []
    execdata := { execdata with m_codeseparator_pos := 0xffffffff }
    metrics := metrics
    opcodeIdx := 0
    pc := 0
    scriptCodeStart := 0
    csTrace := [] }

/-- Modelled from the spec: `EvalScript` (body not under src/), returning the
final interpreter state or the first error.  `sigversion` selects the
commitment scheme, which no opcode of the modelled subset consults.
`sigChecksLimit` is the configured signature-check ceiling. -/
def EvalScriptCore (stack : List (List Nat)) (script : List Nat) (flags : Nat)
    (checker : SignatureChecker) (sigversion : SigVersion)
    (execdata : ScriptExecutionData) (metrics : ScriptExecutionMetrics)
    (sigChecksLimit : Nat) : Except ScriptError ExecState :=
  if script.length > MAX_SCRIPT_SIZE then .error .SCRIPT_SIZE
  else evalOps script flags checker sigChecksLimit (script.length + 1) script
    (initialState stack execdata metrics)

/-- Observable outputs of one `EvalScript` call: the C++ signature returns a
bool and reports the final stack, execdata, metrics and error through its
by-reference parameters.  The header's comment for the orchestrator notes
that on failure the results should not be relied on; this model returns the
inputs unchanged in that case. -/
structure EvalResult where
  ok : Bool
  stack : List (List Nat)
  execdata : ScriptExecutionData
  metrics : ScriptExecutionMetrics
  serror : ScriptError
  deriving DecidableEq, Repr

/-- The full 8-parameter `EvalScript` of src/script/interpreter.h
lines 112-115, packaged into its observable outputs. -/
def EvalScript (stack : List (List Nat)) (script : List Nat) (flags : Nat)
    (checker : SignatureChecker) (sigversion : SigVersion)
    (execdata : ScriptExecutionData) (metrics : ScriptExecutionMetrics)
    (sigChecksLimit : Nat) : EvalResult :=
  match EvalScriptCore stack script flags checker sigversion execdata metrics
      sigChecksLimit with
  | .ok st =>
    { ok := true, stack := st.stack, execdata := st.execdata,
      metrics := st.metrics, serror := .OK }
  | .error e =>
    { ok := false, stack := stack, execdata := execdata, metrics := metrics,
      serror := e }

/-- The convenience overload of src/script/interpreter.h lines 116-122: no
`SigVersion` parameter; it default-constructs a `ScriptExecutionData` and
forwards to the full `EvalScript` with `SigVersion::BASE`.  Its observable
outputs are the bool, the stack, the metrics and the error (the local
execdata is discarded). -/
def EvalScriptBase (stack : List (List Nat)) (script : List Nat) (flags : Nat)
    (checker : SignatureChecker) (metrics : ScriptExecutionMetrics)
    (sigChecksLimit : Nat) :
    Bool × List (List Nat) × ScriptExecutionMetrics × ScriptError :=
  let execdata : ScriptExecutionData := {}
  let r := EvalScript stack script flags checker SigVersion.BASE execdata
    metrics sigChecksLimit
  (r.ok, r.stack, r.metrics, r.serror)

/-- The convenience overload of src/script/interpreter.h lines 123-129: no
metrics parameter; it creates a dummy `ScriptExecutionMetrics` and forwards
to the previous overload, exposing only the bool, the stack and the error. -/
def EvalScriptNoMetrics (stack : List (List Nat)) (script : List Nat)
    (flags : Nat) (checker : SignatureChecker) (sigChecksLimit : Nat) :
    Bool × List (List Nat) × ScriptError :=
  let dummymetrics : ScriptExecutionMetrics := {}
  let r := EvalScriptBase stack script flags checker dummymetrics sigChecksLimit
  (r.1, r.2.1, r.2.2.2)

/-- Modelled from the spec: `VerifyScript` (body not under src/, declared at
src/script/interpreter.h lines 137-140).  Spec section 4.5: run the
unlocking script from an empty stack, then the locking script on the
resulting stack carrying the side-channel data forward; success needs a
non-empty truthy top of stack, and under the clean-stack flag exactly one
element.  P2SH/witness redemption is outside the modelled subset. -/
def VerifyScriptCore (scriptSig scriptPubKey : List Nat) (flags : Nat)
    (checker : SignatureChecker) (sigChecksLimit : Nat) :
    Except ScriptError ExecState :=
  match EvalScriptCore [] scriptSig flags checker SigVersion.BASE {} {}
      sigChecksLimit with
  | .error e => .error e
  | .ok st1 =>
    match EvalScriptCore st1.stack scriptPubKey flags checker SigVersion.BASE
        st1.execdata st1.metrics sigChecksLimit with
    | .error e => .error e
    | .ok st2 =>
      if st2.stack.isEmpty then .error .EVAL_FALSE
      else if !CastToBool (st2.stack.headD []) then .error .EVAL_FALSE
      else if hasFlag flags SCRIPT_VERIFY_CLEANSTACK && !st2.stack.tail.isEmpty then
        .error .CLEANSTACK
      else .ok st2

/-- Observable outputs of `VerifyScript`: success flag, accumulated metrics
and error code. -/
def VerifyScript (scriptSig scriptPubKey : List Nat) (flags : Nat)
    (checker : SignatureChecker) (sigChecksLimit : Nat) :
    Bool × ScriptExecutionMetrics × ScriptError :=
  match VerifyScriptCore scriptSig scriptPubKey flags checker sigChecksLimit with
  | .ok st => (true, st.metrics, .OK)
  | .error e => (false, {}, e)

/-! ## Transactions and hashing -/

/-- Reference to a previous transaction output. -/
structure OutPoint where
  txid : List Nat
  n : Nat
  deriving DecidableEq, Repr

/-- A transaction output: amount in satoshis and locking script. -/
structure TxOut where
  nValue : Int
  scriptPubKey : List Nat
  deriving DecidableEq, Repr

/-- A transaction input. -/
structure TxIn where
  prevout : OutPoint
  scriptSig : List Nat
  nSequence : Nat
  deriving DecidableEq, Repr

/-- A transaction. -/
structure Transaction where
  nVersion : Int
  vin : List TxIn
  vout : List TxOut
  nLockTime : Nat
  deriving DecidableEq, Repr

/-- Truncation to a 32-bit word. -/
def w32 (x : Nat) : Nat := x % 4294967296

/-- Right rotation of a 32-bit word. -/
def rotr (n x : Nat) : Nat := w32 ((x >>> n) ||| (x <<< (32 - n)))

/-- Modelled from the spec: the SHA-256 primitive used by the hashing layer
(hash.h is not under src/; the spec fixes SHA256 by the relationship
"doubleHash(x) == SHA256(SHA256(x))").  These are the standard round
constants. -/
def sha256K : List Nat :=
  [1116352408, 1899447441, 3049323471, 3921009573, 961987163, 1508970993,
   2453635748, 2870763221, 3624381080, 310598401, 607225278, 1426881987,
   1925078388, 2162078206, 2614888103, 3248222580, 3835390401, 4022224774,
   264347078, 604807628, 770255983, 1249150122, 1555081692, 1996064986,
   2554220882, 2821834349, 2952996808, 3210313671, 3336571891, 3584528711,
   113926993, 338241895, 666307205, 773529912, 1294757372, 1396182291,
   1695183700, 1986661051, 2177026350, 2456956037, 2730485921, 2820302411,
   3259730800, 3345764771, 3516065817, 3600352804, 4094571909, 275423344,
   430227734, 506948616, 659060556, 883997877, 958139571, 1322822218,
   1537002063, 1747873779, 1955562222, 2024104815, 2227730452, 2361852424,
   2428436474, 2756734187, 3204031479, 3329325298]

/-- Initial SHA-256 chaining values. -/
def sha256InitH : List Nat :=
  [1779033703, 3144134277, 1013904242, 2773480762, 1359893119, 2600822924, 528734635, 1541459225]

/-- Big-endian decoding of bytes into 32-bit words. -/
def bytesToWordsBE : List Nat → List Nat
  | b0 :: b1 :: b2 :: b3 :: rest =>
    (((b0 * 256 + b1) * 256 + b2) * 256 + b3) :: bytesToWordsBE rest
  | _ => []

/-- Big-endian encoding of a 32-bit word into bytes. -/
def beBytes4 (x : Nat) : List Nat :=
  [x / 16777216 % 256, x / 65536 % 256, x / 256 % 256, x % 256]

/-- Big-endian encoding of a 64-bit value into bytes. -/
def beBytes8 (x : Nat) : List Nat := beBytes4 (x / 4294967296) ++ beBytes4 x

/-- SHA-256 message-schedule extension: appends `rounds` further words. -/
def sha256Extend (w : List Nat) : Nat → List Nat
  | 0 => w
  | r + 1 =>
    let i := w.length
    let w15 := w.getD (i - 15) 0
    let w2 := w.getD (i - 2) 0
    let s0 := w32 ((rotr 7 w15) ^^^ (rotr 18 w15) ^^^ (w15 >>> 3))
    let s1 := w32 ((rotr 17 w2) ^^^ (rotr 19 w2) ^^^ (w2 >>> 10))
    sha256Extend (w ++ [w32 (w.getD (i - 16) 0 + s0 + w.getD (i - 7) 0 + s1)]) r

/-- SHA-256 compression rounds over the schedule. -/
def sha256Rounds : List Nat → List Nat → List Nat → List Nat
  | k :: ks, w :: ws, [a, b, c, d, e, f, g, h] =>
    let s1 := w32 ((rotr 6 e) ^^^ (rotr 11 e) ^^^ (rotr 25 e))
    let ch := w32 ((e &&& f) ^^^ ((e ^^^ 0xffffffff) &&& g))
    let temp1 := w32 (h + s1 + ch + k + w)
    let s0 := w32 ((rotr 2 a) ^^^ (rotr 13 a) ^^^ (rotr 22 a))
    let maj := w32 ((a &&& b) ^^^ (a &&& c) ^^^ (b &&& c))
    let temp2 := w32 (s0 + maj)
    sha256Rounds ks ws [w32 (temp1 + temp2), a, b, c, w32 (d + temp1), e, f, g]
  | _, _, hs => hs

/-- One SHA-256 block step on a 64-byte block. -/
def sha256Block (hs : List Nat) (block : List Nat) : List Nat :=
  let ws := sha256Extend (bytesToWordsBE block) 48
  let out := sha256Rounds sha256K ws hs
  List.zipWith (fun x y => w32 (x + y)) hs out

/-- Folds the block step over a padded message, 64 bytes at a time (the fuel
only bounds recursion and `bytes.length` is always sufficient). -/
def sha256Blocks : Nat → List Nat → List Nat → List Nat
  | 0, hs, _ => hs
  | fuel + 1, hs, bytes =>
    if bytes.isEmpty then hs
    else sha256Blocks fuel (sha256Block hs (bytes.take 64)) (bytes.drop 64)

/-- Standard SHA-256 padding: a `0x80` byte, zeros to 56 mod 64, then the
bit length as a 64-bit big-endian value. -/
def sha256Pad (msg : List Nat) : List Nat :=
  msg ++ [0x80] ++ List.replicate ((119 - msg.length % 64) % 64) 0 ++
    beBytes8 (8 * msg.length)

/-- SHA-256 of a byte string (single round). -/
def sha256 (msg : List Nat) : List Nat :=
  let padded := sha256Pad msg
  ((sha256Blocks padded.length sha256InitH padded).map beBytes4).flatten

/-- Double SHA-256, the legacy mode hash. -/
def sha256d (msg : List Nat) : List Nat := sha256 (sha256 msg)

/-! ## Serialization of transaction pieces -/

/-- Little-endian 32-bit serialization. -/
def le32Bytes (n : Nat) : List Nat :=
  [n % 256, n / 256 % 256, n / 65536 % 256, n / 16777216 % 256]

/-- Little-endian 64-bit serialization. -/
def le64Bytes (n : Nat) : List Nat :=
  le32Bytes (n % 4294967296) ++ le32Bytes (n / 4294967296 % 4294967296)

/-- Little-endian 32-bit serialization of a signed value (two's complement). -/
def le32BytesInt (i : Int) : List Nat := le32Bytes (Int.emod i 4294967296).toNat

/-- Little-endian 64-bit serialization of a signed value (two's complement). -/
def le64BytesInt (i : Int) : List Nat :=
  le64Bytes (Int.emod i 18446744073709551616).toNat

/-- Bitcoin variable-length integer (CompactSize). -/
def varint (n : Nat) : List Nat :=
  if n < 253 then [n]
  else if n < 65536 then 253 :: [n % 256, n / 256 % 256]
  else if n < 4294967296 then 254 :: le32Bytes n
  else 255 :: le64Bytes n

/-- Serialization of an outpoint (txid then index). -/
def serOutPoint (o : OutPoint) : List Nat := o.txid ++ le32Bytes o.n

/-- Concatenated serialization of all prevouts of a transaction. -/
def serPrevouts (tx : Transaction) : List Nat :=
  (tx.vin.map (fun i => serOutPoint i.prevout)).flatten

/-- Concatenated serialization of all input sequence numbers. -/
def serSequences (tx : Transaction) : List Nat :=
  (tx.vin.map (fun i => le32Bytes i.nSequence)).flatten

/-- Serialization of one output. -/
def serTxOut (o : TxOut) : List Nat :=
  le64BytesInt o.nValue ++ varint o.scriptPubKey.length ++ o.scriptPubKey

/-- Concatenated serialization of all outputs of a transaction. -/
def serOutputs (tx : Transaction) : List Nat := (tx.vout.map serTxOut).flatten

/-- Concatenated serialization of the amounts of the spent outputs. -/
def serAmounts (outs : List TxOut) : List Nat :=
  (outs.map (fun o => le64BytesInt o.nValue)).flatten

/-- Concatenated serialization of the scripts of the spent outputs. -/
def serScripts (outs : List TxOut) : List Nat :=
  (outs.map (fun o => varint o.scriptPubKey.length ++ o.scriptPubKey)).flatten

/-! ## Commitment precomputation and sighash -/

/-- Modelled from the spec: `PrecomputedTransactionData` (not under src/).
Spec section 4.4: it caches the single-round hash of all prevouts, sequence
numbers, outputs, spent amounts and spent scripts, and the double-hash of
prevouts/sequences/outputs for legacy reuse, plus the spent-outputs list the
test suite observes (`m_spent_outputs`). -/
structure PrecomputedTransactionData where
  m_spent_outputs : List TxOut
  m_prevouts_single_hash : List Nat
  m_sequences_single_hash : List Nat
  m_outputs_single_hash : List Nat
  m_spent_amounts_single_hash : List Nat
  m_spent_scripts_single_hash : List Nat
  hashPrevouts : List Nat
  hashSequence : List Nat
  hashOutputs : List Nat
  deriving DecidableEq, Repr

/-- Modelled from the spec: construction of the commitment cache from a
transaction and its explicit spent-outputs list (spec sections 4.4 and 6). -/
def PrecomputedTransactionData.make (tx : Transaction) (spentOutputs : List TxOut) :
    PrecomputedTransactionData :=
  { m_spent_outputs := spentOutputs
    m_prevouts_single_hash := sha256 (serPrevouts tx)
    m_sequences_single_hash := sha256 (serSequences tx)
    m_outputs_single_hash := sha256 (serOutputs tx)
    m_spent_amounts_single_hash := sha256 (serAmounts spentOutputs)
    m_spent_scripts_single_hash := sha256 (serScripts spentOutputs)
    hashPrevouts := sha256d (serPrevouts tx)
    hashSequence := sha256d (serSequences tx)
    hashOutputs := sha256d (serOutputs tx) }

/-- Modelled from the spec: `PrecomputedTransactionData::FromCoinsView` (not
under src/; used at src/test/sighash_bip341_tests.cpp lines 44-46).  Spec
section 6: the factory accepts a chain-state lookup collaborator that
resolves the spent output of each input by its previous-output reference;
the cache is not constructed when a coin is missing. -/
def PrecomputedTransactionData.FromCoinsView (tx : Transaction)
    (coins : OutPoint → Option TxOut) : Option PrecomputedTransactionData :=
  match tx.vin.mapM (fun i => coins i.prevout) with
  | none => none
  | some outs => some (PrecomputedTransactionData.make tx outs)

/-- Signature-hash type byte, per spec section 4.3: a base type (commit-all /
commit-none / commit-single-output), an anyone-can-pay modifier and the
fork-id (amount commitment) modifier. -/
structure SigHashType where
  raw : Nat
  deriving DecidableEq, Repr

/-- Base hash type: low five bits of the raw byte. -/
def SigHashType.baseType (t : SigHashType) : Nat := t.raw % 32

/-- Whether the anyone-can-pay modifier (bit 0x80) is set. -/
def SigHashType.hasAnyoneCanPay (t : SigHashType) : Bool := t.raw &&& 0x80 != 0

/-- Whether the fork-id modifier (bit 0x40) is set. -/
def SigHashType.hasForkId (t : SigHashType) : Bool := t.raw &&& 0x40 != 0

/-- The commit-all base type. -/
def SIGHASH_ALL : Nat := 1

/-- The commit-none base type. -/
def SIGHASH_NONE : Nat := 2

/-- The commit-single-output base type. -/
def SIGHASH_SINGLE : Nat := 3

/-- A default input, used for out-of-range index reads. -/
def defaultTxIn : TxIn := { prevout := { txid := [], n := 0 }, scriptSig := [], nSequence := 0 }

/-- A default output, used for out-of-range index reads. -/
def defaultTxOut : TxOut := { nValue := 0, scriptPubKey := [] }

/-- The 32-byte all-zero digest used for "nothing committed" fields. -/
def zeroHash32 : List Nat := List.replicate 32 0

/-- The `uint256(1)` little-endian sentinel the legacy sighash returns on an
out-of-range input or commit-single-output index. -/
def oneHash32 : List Nat := 1 :: List.replicate 31 0

/-- Serialization of one input for the legacy sighash: every input other
than the signed one has its script blanked, and its sequence zeroed when the
outputs are not all committed (spec section 4.3, legacy mode). -/
def serInputLegacy (scriptCode : List Nat) (nIn : Nat) (baseType : Nat)
    (k : Nat) (txin : TxIn) : List Nat :=
  serOutPoint txin.prevout ++
  (if k = nIn then varint scriptCode.length ++ scriptCode else varint 0) ++
  (if k ≠ nIn ∧ (baseType = SIGHASH_NONE ∨ baseType = SIGHASH_SINGLE) then
    le32Bytes 0
  else le32Bytes txin.nSequence)

/-- Outputs committed by the legacy sighash: all of them for commit-all, none
for commit-none, and for commit-single-output the outputs up to the signed
index with the earlier ones blanked to (value -1, empty script). -/
def legacyOutputs (tx : Transaction) (nIn : Nat) (baseType : Nat) : List TxOut :=
  if baseType = SIGHASH_NONE then []
  else if baseType = SIGHASH_SINGLE then
    (List.range (nIn + 1)).map (fun k =>
      if k = nIn then tx.vout.getD k defaultTxOut
      else { nValue := -1, scriptPubKey := [] })
  else tx.vout

/-- Modelled from the spec: `SignatureHash` (declared at
src/script/interpreter.h lines 42-47, body not under src/).  Spec
section 4.3: in legacy mode it serializes a transaction variant with other
inputs' scripts blanked (unless anyone-can-pay) and outputs pruned per hash
type, then double-hashes with the hash-type word appended; with the fork-id
flag and hash-type bit it instead uses the amount-committing scheme built
from the cached prevout/sequence/output double-hashes (folding in the spent
amount), recomputing those hashes when no cache is supplied. -/
def SignatureHash (scriptCode : List Nat) (tx : Transaction) (nIn : Nat)
    (sigHashType : SigHashType) (amount : Int)
    (cache : Option PrecomputedTransactionData) (flags : Nat) : List Nat :=
  if hasFlag flags SCRIPT_ENABLE_SIGHASH_FORKID && sigHashType.hasForkId then
    let hashPrevouts :=
      if sigHashType.hasAnyoneCanPay then zeroHash32
      else match cache with
        | some c => c.hashPrevouts
        | none => sha256d (serPrevouts tx)
    let hashSequence :=
      if sigHashType.hasAnyoneCanPay ∨ sigHashType.baseType ≠ SIGHASH_ALL then
        zeroHash32
      else match cache with
        | some c => c.hashSequence
        | none => sha256d (serSequences tx)
    let hashOutputs :=
      if sigHashType.baseType = SIGHASH_ALL then
        match cache with
        | some c => c.hashOutputs
        | none => sha256d (serOutputs tx)
      else if sigHashType.baseType = SIGHASH_SINGLE ∧ nIn < tx.vout.length then
        sha256d (serTxOut (tx.vout.getD nIn defaultTxOut))
      else zeroHash32
    let txin := tx.vin.getD nIn defaultTxIn
    sha256d (le32BytesInt tx.nVersion ++ hashPrevouts ++ hashSequence ++
      serOutPoint txin.prevout ++ varint scriptCode.length ++ scriptCode ++
      le64BytesInt amount ++ le32Bytes txin.nSequence ++ hashOutputs ++
      le32Bytes tx.nLockTime ++ le32Bytes sigHashType.raw)
  else
    if tx.vin.length ≤ nIn then oneHash32
    else if sigHashType.baseType = SIGHASH_SINGLE ∧ tx.vout.length ≤ nIn then
      oneHash32
    else
      let ins :=
        if sigHashType.hasAnyoneCanPay then [tx.vin.getD nIn defaultTxIn]
        else tx.vin
      let serIns :=
        if sigHashType.hasAnyoneCanPay then
          (ins.map (serInputLegacy scriptCode 0 sigHashType.baseType 0)).flatten
        else
          ((List.range ins.length).zip ins).map
            (fun kv => serInputLegacy scriptCode nIn sigHashType.baseType kv.1 kv.2)
            |>.flatten
      let outs := legacyOutputs tx nIn sigHashType.baseType
      sha256d (le32BytesInt tx.nVersion ++ varint ins.length ++ serIns ++
        varint outs.length ++ (outs.map serTxOut).flatten ++
        le32Bytes tx.nLockTime ++ le32Bytes sigHashType.raw)

/-! ## ASERT difficulty calculation -/

/-- The 256-bit modulus of `arith_uint256` arithmetic. -/
def MAX_U256 : Nat := 2 ^ 256

/-- Modelled from the spec: `CalculateASERT` (pow/aserti32d, body not under
src/; the spec lists difficulty-retargeting among external collaborators).
The model follows the absolute ASERT-i32d formulation that the repository's
own test vectors in src/src/pow/test/aserti32d_tests.cpp pin exactly (the
theorem `calculateASERT_matches_test_vectors` below replays them): the
fixed-point exponent `(nTimeDiff - nPowTargetSpacing * (nHeightDiff + 1)) *
65536 / nHalfLife` is split into integral shift and 16-bit fraction, the
reference target is scaled by a cubic polynomial approximation of
2^(frac/65536), shifted, and the result clamped to [1, powLimit], with a
shift-overflow test that returns `powLimit` directly.  The C++ quotient
truncates toward zero (`Int.tdiv`); its arithmetic right shift is a floor
division, giving a non-negative 16-bit fraction. -/
def CalculateASERT (refTarget : Nat) (nPowTargetSpacing : Int) (nTimeDiff : Int)
    (nHeightDiff : Int) (powLimit : Nat) (nHalfLife : Int) : Nat :=
  let exponent : Int :=
    Int.tdiv ((nTimeDiff - nPowTargetSpacing * (nHeightDiff + 1)) * 65536)
      nHalfLife
  let shifts : Int := Int.ediv exponent 65536 - 16
  let frac : Nat := (Int.emod exponent 65536).toNat
  let factor : Nat := 65536 +
    ((195766423245049 * frac + 971821376 * frac * frac +
      5127 * frac * frac * frac + 2 ^ 47) % 2 ^ 64) >>> 48
  let nextTarget := (refTarget * factor) % MAX_U256
  if shifts ≤ 0 then
    let nt := nextTarget >>> (-shifts).toNat
    if nt = 0 then 1
    else if powLimit < nt then powLimit
    else nt
  else
    let shifted := (nextTarget <<< shifts.toNat) % MAX_U256
    if shifted >>> shifts.toNat ≠ nextTarget then powLimit
    else
      if shifted = 0 then 1
      else if powLimit < shifted then powLimit
      else shifted

/-- Main-net proof-of-work limit, as pinned by the test suite: the compact
encoding round trips of the aserti32d tests require all 224 low bits set. -/
def mainPowLimit : Nat := 2 ^ 224 - 1

/-- Target spacing used throughout the aserti32d tests (`t_block`). -/
def t_block : Int := 120

/-- Blocks per day at the test target spacing (`dh_day`). -/
def dh_day : Int := 720

/-- The ASERT half-life used by the tests (two days in seconds, fixed by the
"two days ahead doubles the target" vectors). -/
def nDAAHalfLife : Int := 172800

/-! ## Concrete data used by the theorems -/

/-- Opcode index of the last executed code-separator recorded in an
instrumentation trace, or the `0xffffffff` sentinel when none executed. -/
def lastCodesepIdx (tr : List (Nat × Nat)) : Nat :=
  ((tr.map Prod.fst).getLast?).getD 0xffffffff

/-- Byte encoding of `0 OP_IF OP_NOP OP_CODESEPARATOR OP_NOP OP_ENDIF`. -/
def csScriptFalseBranch : List Nat := [0x00, 0x63, 0x61, 0xab, 0x61, 0x68]

/-- Byte encoding of `1 OP_IF OP_NOP OP_CODESEPARATOR OP_NOP OP_ENDIF`. -/
def csScriptTrueBranch : List Nat := [0x51, 0x63, 0x61, 0xab, 0x61, 0x68]

/-- Byte encoding of a 520-byte data push (OP_PUSHDATA2, length 520,
zero-filled payload) followed by `OP_CODESEPARATOR` and `OP_1` — the script
of src/test/sighash_bip341_tests.cpp line 80.  The code-separator is the
element at opcode index 1 and at byte offset 523. -/
def pushdata520Script : List Nat :=
  [0x4d, 0x08, 0x02] ++ List.replicate 520 0 ++ [0xab, 0x51]

/-- Final interpreter state of `csScriptTrueBranch` starting from an empty
stack (computed by the model; checked against it by `decide` below). -/
def csTrueFinalState : ExecState :=
  { stack := []
    vfExec := []
    execdata := { m_codeseparator_pos := 3 }
    metrics := { nSigChecks := 0 }
    opcodeIdx := 6
    pc := 6
    scriptCodeStart := 4
    csTrace := [(3, 3)] }

/-- A checker whose signature predicate depends on the flag word, abstracting
the spec's transaction-bound checker: per spec sections 4.2-4.3 the computed
sighash (and hence signature validity) depends on whether the fork-id flag
is enabled, so a signature made for the fork-id commitment verifies exactly
when that flag is on. -/
def forkidSensitiveChecker : SignatureChecker where
  CheckSig := fun _ _ _ flags => hasFlag flags SCRIPT_ENABLE_SIGHASH_FORKID
  CheckLockTime := fun _ => false
  CheckSequence := fun _ => false
  CheckSigTaproot := fun _ _ _ => false

/-- A checker that accepts every signature, used to exercise the
signature-check ceiling with individually valid signatures. -/
def allValidChecker : SignatureChecker where
  CheckSig := fun _ _ _ _ => true
  CheckLockTime := fun _ => false
  CheckSequence := fun _ => false
  CheckSigTaproot := fun _ _ _ => false

/-- One script block performing a single signature check: push an (empty)
signature, push an (empty) public key, `OP_CHECKSIG`. -/
def sigCheckBlock : List Nat := [0x00, 0x00, 0xac]

/-- A script performing `n` signature checks. -/
def sigCheckScript (n : Nat) : List Nat :=
  (List.replicate n sigCheckBlock).flatten

/-- Transaction funding the concrete `FromCoinsView` scenario (mirrors
`txFrom` of src/test/sighash_bip341_tests.cpp lines 28-34). -/
def txFromOut : TxOut := { nValue := 1000, scriptPubKey := [0x51] }

/-- Identifier of the funding transaction in the concrete scenario. -/
def txFromId : List Nat := List.replicate 32 7

/-- Spending transaction of the concrete `FromCoinsView` scenario (mirrors
`txTo` of src/test/sighash_bip341_tests.cpp lines 36-42). -/
def txToConcrete : Transaction :=
  { nVersion := 2
    vin := [{ prevout := { txid := txFromId, n := 0 }, scriptSig := [],
              nSequence := 0xffffffff }]
    vout := [{ nValue := 3000, scriptPubKey := [0x52] }]
    nLockTime := 0 }

/-- Coins view of the concrete scenario: only the funding output exists. -/
def coinsConcrete : OutPoint → Option TxOut := fun p =>
  if p = { txid := txFromId, n := 0 } then some txFromOut else none

/-- Final interpreter state of `pushdata520Script` starting from an empty
stack (computed by the model; checked against it by `decide` below). -/
def pd520FinalState : ExecState :=
  { stack := [[1], List.replicate 520 0]
    vfExec := []
    execdata := { m_codeseparator_pos := 1 }
    metrics := { nSigChecks := 0 }
    opcodeIdx := 3
    pc := 525
    scriptCodeStart := 524
    csTrace := [(1, 523)] }

/-! ## Helper lemmas -/

theorem hasFlag_of_subset {F G c : Nat} (hFG : F &&& G = F)
    (h : hasFlag F c = true) : hasFlag G c = true := by
  simp only [hasFlag, bne_iff_ne, ne_eq] at h ⊢
  intro hg
  apply h
  rw [← hFG, Nat.land_assoc, hg, Nat.and_zero]

theorem hasFlag_false_of_subset {F G c : Nat} (hFG : F &&& G = F)
    (h : hasFlag G c = false) : hasFlag F c = false := by
  cases hF : hasFlag F c
  · rfl
  · rw [hasFlag_of_subset hFG hF] at h
    exact h

theorem flagGuard_false_of_subset {F G c : Nat} (hFG : F &&& G = F) (bad : Bool)
    (h : (hasFlag G c && bad) = false) : (hasFlag F c && bad) = false := by
  cases hF : hasFlag F c
  · rfl
  · rw [hasFlag_of_subset hFG hF] at h
    simpa using h

theorem flagGuard_true_of_subset {F G c : Nat} (hFG : F &&& G = F) {bad : Bool}
    (h : (hasFlag F c && bad) = true) : (hasFlag G c && bad) = true := by
  rw [Bool.and_eq_true] at h ⊢
  exact ⟨hasFlag_of_subset hFG h.1, h.2⟩

theorem execPushdata_mono {F G : Nat} {opb : Nat} {data : List Nat} {st st' : ExecState}
    (hFG : F &&& G = F) (h : execPushdata G opb data st = .ok st') :
    execPushdata F opb data st = .ok st' := by
  simp only [execPushdata] at h ⊢
  split_ifs at h ⊢ with h1 h2 h3 h4 <;>
    first
      | exact h
      | exact absurd (flagGuard_true_of_subset hFG h3) h4

theorem execUpgradableNop_mono {F G : Nat} {st st' : ExecState}
    (hFG : F &&& G = F) (h : execUpgradableNop G st = .ok st') :
    execUpgradableNop F st = .ok st' := by
  simp only [execUpgradableNop] at h ⊢
  split_ifs at h ⊢ with h1 h2 <;>
    first
      | exact h
      | exact absurd (hasFlag_of_subset hFG h1) h2

theorem execCondIf_mono {F G : Nat} {b : Nat} {st st' : ExecState}
    (hFG : F &&& G = F) (h : execCondIf G b st = .ok st') :
    execCondIf F b st = .ok st' := by
  simp only [execCondIf] at h ⊢
  split_ifs at h ⊢ with h1 h2 h3 h4 <;>
    first
      | exact h
      | exact absurd (flagGuard_true_of_subset hFG h3) h4

theorem execChecksig_mono {script : List Nat} {F G : Nat} {checker : SignatureChecker}
    {limit : Nat} {st st' : ExecState}
    (hFG : F &&& G = F)
    (hck : ∀ sig pk sc, checker.CheckSig sig pk sc F = checker.CheckSig sig pk sc G)
    (h : execChecksig script G checker limit st = .ok st') :
    execChecksig script F checker limit st = .ok st' := by
  simp only [execChecksig, hck] at h ⊢
  split_ifs at h ⊢ with h1 h2 h3 h4 h5 <;>
    first
      | exact h
      | exact absurd (flagGuard_true_of_subset hFG h4) h5

set_option maxHeartbeats 2000000 in
theorem execOp_mono {script : List Nat} {F G : Nat} {checker : SignatureChecker}
    {limit : Nat} {p : ParsedOp} {st st' : ExecState}
    (hFG : F &&& G = F)
    (hck : ∀ sig pk sc, checker.CheckSig sig pk sc F = checker.CheckSig sig pk sc G)
    (h : execOp script G checker limit p st = .ok st') :
    execOp script F checker limit p st = .ok st' := by
  cases p with
  | pushdata opb data => exact execPushdata_mono hFG h
  | op b =>
    simp only [execOp] at h ⊢
    split_ifs at h ⊢ <;>
      first
        | exact h
        | exact execUpgradableNop_mono hFG h
        | exact execCondIf_mono hFG h
        | exact execChecksig_mono hFG hck h

theorem evalOps_mono {script : List Nat} {F G : Nat} {checker : SignatureChecker}
    {limit : Nat}
    (hFG : F &&& G = F)
    (hck : ∀ sig pk sc, checker.CheckSig sig pk sc F = checker.CheckSig sig pk sc G) :
    ∀ fuel rem (st st' : ExecState),
      evalOps script G checker limit fuel rem st = .ok st' →
      evalOps script F checker limit fuel rem st = .ok st' := by
  intro fuel
  induction fuel with
  | zero =>
    intro rem st st' h
    cases rem with
    | nil => exact h
    | cons b bs => simp [evalOps] at h
  | succ n ih =>
    intro rem st st' h
    cases rem with
    | nil => exact h
    | cons b bs =>
      cases hp : parseOp (b :: bs) with
      | none => simp [evalOps, hp] at h
      | some v =>
        obtain ⟨p, consumed, rest⟩ := v
        simp only [evalOps, hp] at h ⊢
        cases he : execOp script G checker limit p st with
        | error e => simp [he] at h
        | ok st1 =>
          simp only [he] at h
          simp only [execOp_mono hFG hck he]
          exact ih _ _ _ h

theorem evalScriptCore_mono {stack : List (List Nat)} {script : List Nat}
    {F G : Nat} {checker : SignatureChecker} {sv : SigVersion}
    {execdata : ScriptExecutionData} {metrics : ScriptExecutionMetrics}
    {limit : Nat} {st' : ExecState}
    (hFG : F &&& G = F)
    (hck : ∀ sig pk sc, checker.CheckSig sig pk sc F = checker.CheckSig sig pk sc G)
    (h : EvalScriptCore stack script G checker sv execdata metrics limit = .ok st') :
    EvalScriptCore stack script F checker sv execdata metrics limit = .ok st' := by
  simp only [EvalScriptCore] at h ⊢
  split_ifs at h ⊢ with h1
  exact evalOps_mono hFG hck _ _ _ _ h

theorem verifyScriptCore_mono {scriptSig scriptPubKey : List Nat} {F G : Nat}
    {checker : SignatureChecker} {limit : Nat} {st' : ExecState}
    (hFG : F &&& G = F)
    (hck : ∀ sig pk sc, checker.CheckSig sig pk sc F = checker.CheckSig sig pk sc G)
    (h : VerifyScriptCore scriptSig scriptPubKey G checker limit = .ok st') :
    VerifyScriptCore scriptSig scriptPubKey F checker limit = .ok st' := by
  simp only [VerifyScriptCore] at h ⊢
  cases h1 : EvalScriptCore [] scriptSig G checker SigVersion.BASE {} {} limit with
  | error e => simp [h1] at h
  | ok st1 =>
    simp only [h1] at h
    simp only [evalScriptCore_mono hFG hck h1]
    cases h2 : EvalScriptCore st1.stack scriptPubKey G checker SigVersion.BASE
        st1.execdata st1.metrics limit with
    | error e => simp [h2] at h
    | ok st2 =>
      simp only [h2] at h
      simp only [evalScriptCore_mono hFG hck h2]
      split_ifs at h ⊢ with c1 c2 c3 c4 <;>
        first
          | exact h
          | exact absurd (flagGuard_true_of_subset hFG c3) c4

theorem codesep_fields_lift {st st' : ExecState}
    (h : st'.execdata = st.execdata ∧ st'.csTrace = st.csTrace) :
    st'.execdata.m_codeseparator_pos = st.execdata.m_codeseparator_pos ∧
      st'.csTrace = st.csTrace := by
  exact ⟨by rw [h.1], h.2⟩

theorem lastCodesepIdx_concat (tr : List (Nat × Nat)) (x : Nat × Nat) :
    lastCodesepIdx (tr ++ [x]) = x.1 := by
  simp [lastCodesepIdx, List.getLast?_concat]

theorem execPushdata_codesep_fields {flags opb : Nat} {data : List Nat}
    {st st' : ExecState} (h : execPushdata flags opb data st = .ok st') :
    st'.execdata = st.execdata ∧ st'.csTrace = st.csTrace := by
  simp only [execPushdata] at h
  split_ifs at h <;> simp only [Except.ok.injEq] at h <;> subst h <;> exact ⟨rfl, rfl⟩

theorem execUpgradableNop_codesep_fields {flags : Nat} {st st' : ExecState}
    (h : execUpgradableNop flags st = .ok st') :
    st'.execdata = st.execdata ∧ st'.csTrace = st.csTrace := by
  simp only [execUpgradableNop] at h
  split_ifs at h <;> simp only [Except.ok.injEq] at h <;> subst h <;> exact ⟨rfl, rfl⟩

theorem execCondIf_codesep_fields {flags b : Nat} {st st' : ExecState}
    (h : execCondIf flags b st = .ok st') :
    st'.execdata = st.execdata ∧ st'.csTrace = st.csTrace := by
  simp only [execCondIf] at h
  split_ifs at h <;> simp only [Except.ok.injEq] at h <;> subst h <;> exact ⟨rfl, rfl⟩

theorem execElse_codesep_fields {st st' : ExecState}
    (h : execElse st = .ok st') :
    st'.execdata = st.execdata ∧ st'.csTrace = st.csTrace := by
  simp only [execElse] at h
  split_ifs at h <;> simp only [Except.ok.injEq] at h <;> subst h <;> exact ⟨rfl, rfl⟩

theorem execEndif_codesep_fields {st st' : ExecState}
    (h : execEndif st = .ok st') :
    st'.execdata = st.execdata ∧ st'.csTrace = st.csTrace := by
  simp only [execEndif] at h
  split_ifs at h <;> simp only [Except.ok.injEq] at h <;> subst h <;> exact ⟨rfl, rfl⟩

theorem execChecksig_codesep_fields {script : List Nat} {flags : Nat}
    {checker : SignatureChecker} {limit : Nat} {st st' : ExecState}
    (h : execChecksig script flags checker limit st = .ok st') :
    st'.execdata = st.execdata ∧ st'.csTrace = st.csTrace := by
  simp only [execChecksig] at h
  split_ifs at h <;> simp only [Except.ok.injEq] at h <;> subst h <;> exact ⟨rfl, rfl⟩

set_option maxHeartbeats 2000000 in
theorem execOp_codesep_fields {script : List Nat} {flags : Nat}
    {checker : SignatureChecker} {limit : Nat} {p : ParsedOp} {st st' : ExecState}
    (h : execOp script flags checker limit p st = .ok st') :
    (st'.execdata.m_codeseparator_pos = st.execdata.m_codeseparator_pos ∧
      st'.csTrace = st.csTrace) ∨
    (st'.execdata.m_codeseparator_pos = st.opcodeIdx ∧
      st'.csTrace = st.csTrace ++ [(st.opcodeIdx, st.pc)]) := by
  cases p with
  | pushdata opb data =>
    obtain ⟨h1, h2⟩ := execPushdata_codesep_fields h
    exact Or.inl ⟨by rw [h1], h2⟩
  | op b =>
    simp only [execOp] at h
    split_ifs at h <;>
      first
        | (simp only [Except.ok.injEq] at h; subst h; exact Or.inl ⟨rfl, rfl⟩)
        | exact Or.inl (codesep_fields_lift (execUpgradableNop_codesep_fields h))
        | exact Or.inl (codesep_fields_lift (execCondIf_codesep_fields h))
        | exact Or.inl (codesep_fields_lift (execChecksig_codesep_fields h))
        | exact Or.inl (codesep_fields_lift (execElse_codesep_fields h))
        | exact Or.inl (codesep_fields_lift (execEndif_codesep_fields h))
        | (simp only [execCodesep, Except.ok.injEq] at h; subst h
           exact Or.inr ⟨rfl, rfl⟩)

theorem evalOps_codesep_invariant {script : List Nat} {flags : Nat}
    {checker : SignatureChecker} {limit : Nat} :
    ∀ fuel rem (st st' : ExecState),
      evalOps script flags checker limit fuel rem st = .ok st' →
      st.execdata.m_codeseparator_pos = lastCodesepIdx st.csTrace →
      st'.execdata.m_codeseparator_pos = lastCodesepIdx st'.csTrace := by
  intro fuel
  induction fuel with
  | zero =>
    intro rem st st' h hinv
    cases rem with
    | nil =>
      simp only [evalOps] at h
      split_ifs at h
      simp only [Except.ok.injEq] at h
      subst h
      exact hinv
    | cons b bs => simp [evalOps] at h
  | succ n ih =>
    intro rem st st' h hinv
    cases rem with
    | nil =>
      simp only [evalOps] at h
      split_ifs at h
      simp only [Except.ok.injEq] at h
      subst h
      exact hinv
    | cons b bs =>
      cases hp : parseOp (b :: bs) with
      | none => simp [evalOps, hp] at h
      | some v =>
        obtain ⟨p, consumed, rest⟩ := v
        simp only [evalOps, hp] at h
        cases he : execOp script flags checker limit p st with
        | error e => simp [he] at h
        | ok st1 =>
          simp only [he] at h
          apply ih _ _ _ h
          rcases execOp_codesep_fields he with ⟨h1, h2⟩ | ⟨h1, h2⟩
          · show st1.execdata.m_codeseparator_pos = lastCodesepIdx st1.csTrace
            rw [h1, h2]
            exact hinv
          · show st1.execdata.m_codeseparator_pos = lastCodesepIdx st1.csTrace
            rw [h1, h2, lastCodesepIdx_concat]

theorem sigCheckScript_length (n : Nat) : (sigCheckScript n).length = 3 * n := by
  induction n with
  | zero => rfl
  | succ k ih =>
    simp only [sigCheckScript, List.replicate_succ, List.flatten_cons,
      List.length_append, sigCheckBlock] at ih ⊢
    simp only [List.length_cons, List.length_nil]
    omega

theorem evalOps_sigCheckScript {script : List Nat} {flags limit : Nat} :
    ∀ m fuel (st : ExecState), st.vfExec = [] →
      limit < st.metrics.nSigChecks + m → 1 ≤ m → 3 * m ≤ fuel →
      evalOps script flags allValidChecker limit fuel
        ((List.replicate m sigCheckBlock).flatten) st =
        .error .SIGCHECKS_LIMIT_EXCEEDED := by
  intro m
  induction m with
  | zero => intro fuel st h1 h2 h3; omega
  | succ k ih =>
    intro fuel st hvf hlim _ hfuel
    obtain ⟨f1, rfl⟩ : ∃ f1, fuel = f1 + 1 := ⟨fuel - 1, by omega⟩
    obtain ⟨f2, rfl⟩ : ∃ f2, f1 = f2 + 1 := ⟨f1 - 1, by omega⟩
    obtain ⟨f3, rfl⟩ : ∃ f3, f2 = f3 + 1 := ⟨f2 - 1, by omega⟩
    simp only [List.replicate_succ, List.flatten_cons, sigCheckBlock,
      List.cons_append, List.nil_append]
    simp only [evalOps, parseOp]
    norm_num
    simp only [execOp, execPushdata, hvf]
    norm_num [CheckMinimalPush, OP_0, MAX_SCRIPT_ELEMENT_SIZE]
    simp only [evalOps, parseOp]
    norm_num
    simp only [execOp, execPushdata]
    norm_num [CheckMinimalPush, OP_0, MAX_SCRIPT_ELEMENT_SIZE]
    simp only [evalOps, parseOp]
    norm_num [OP_PUSHDATA1, OP_PUSHDATA2, OP_PUSHDATA4]
    simp only [execOp]
    norm_num [OP_1NEGATE, OP_1, OP_16, OP_NOP, OP_NOP1, OP_NOP10, OP_IF, OP_NOTIF,
      OP_ELSE, OP_ENDIF, OP_CODESEPARATOR, OP_CHECKSIG]
    simp only [execChecksig, allValidChecker]
    norm_num
    rw [if_neg (by omega)]
    split_ifs with hc
    · rfl
    · dsimp only
      apply ih
      · rfl
      · dsimp only
        omega
      · omega
      · omega

theorem evalScriptCore_codesep {stack : List (List Nat)} {script : List Nat}
    {flags : Nat} {checker : SignatureChecker} {sv : SigVersion}
    {execdata : ScriptExecutionData} {metrics : ScriptExecutionMetrics}
    {limit : Nat} {st' : ExecState}
    (h : EvalScriptCore stack script flags checker sv execdata metrics limit = .ok st') :
    st'.execdata.m_codeseparator_pos = lastCodesepIdx st'.csTrace := by
  simp only [EvalScriptCore] at h
  split_ifs at h
  exact evalOps_codesep_invariant _ _ _ _ h rfl

theorem mapM_coins_of_isSome {α β : Type} (f : α → Option β) :
    ∀ l : List α, (∀ x ∈ l, (f x).isSome) →
      ∃ outs, l.mapM f = some outs ∧
        List.Forall₂ (fun x o => f x = some o) l outs := by
  intro l
  induction l with
  | nil => exact fun _ => ⟨[], rfl, List.Forall₂.nil⟩
  | cons a l ih =>
    intro h
    obtain ⟨b, hb⟩ := Option.isSome_iff_exists.mp (h a (by simp))
    obtain ⟨outs, houts, hfa⟩ := ih (fun x hx => h x (by simp [hx]))
    refine ⟨b :: outs, ?_, List.Forall₂.cons hb hfa⟩
    rw [List.mapM_cons, hb, houts]
    rfl

/-! ## Claim theorems -/

/-- C1: for every script, after `EvalScript` succeeds the recorded
code-separator position equals the position of the last code-separator
opcode actually executed on the taken branch (the last entry of the
execution trace), and equals the sentinel `0xffffffff` when none executed;
in particular `0 OP_IF OP_NOP OP_CODESEPARATOR OP_NOP OP_ENDIF` records
`0xffffffff` and the same script with leading `1` records position 3, under
both flag sets the test suite uses. -/
theorem codesep_tracking_correct :
    (∀ (script : List Nat) (stack : List (List Nat)) (flags : Nat)
        (checker : SignatureChecker) (sv : SigVersion)
        (execdata : ScriptExecutionData) (metrics : ScriptExecutionMetrics)
        (limit : Nat) (st' : ExecState),
      EvalScriptCore stack script flags checker sv execdata metrics limit = .ok st' →
      st'.execdata.m_codeseparator_pos = lastCodesepIdx st'.csTrace) ∧
    (∀ flags ∈ [SCRIPT_VERIFY_NONE, STANDARD_SCRIPT_VERIFY_FLAGS],
      (EvalScriptCore [] csScriptFalseBranch flags BaseSignatureChecker
          SigVersion.BASE {} {} 1000).map
        (fun st => st.execdata.m_codeseparator_pos) = .ok 0xffffffff ∧
      (EvalScriptCore [] csScriptTrueBranch flags BaseSignatureChecker
          SigVersion.BASE {} {} 1000).map
        (fun st => st.execdata.m_codeseparator_pos) = .ok 3) := by
  constructor
  · intro script stack flags checker sv execdata metrics limit st' h
    exact evalScriptCore_codesep h
  · decide

/-- Witness for C1: the general tracking theorem applied to the concrete
`1 OP_IF OP_NOP OP_CODESEPARATOR OP_NOP OP_ENDIF` run. -/
theorem codesep_tracking_correct_witness :
    csTrueFinalState.execdata.m_codeseparator_pos =
      lastCodesepIdx csTrueFinalState.csTrace :=
  codesep_tracking_correct.1 csScriptTrueBranch [] SCRIPT_VERIFY_NONE
    BaseSignatureChecker SigVersion.BASE {} {} 1000 csTrueFinalState (by decide)

set_option maxRecDepth 100000 in
/-- C2 counterexample: for the script consisting of a 520-byte data push
followed by `OP_CODESEPARATOR` (and `OP_1`), the recorded position is 1 —
the code-separator's opcode index — while its byte offset within the
serialized script is 523 (and no earlier byte is the code-separator
opcode); the recorded position is not the byte offset. -/
theorem codesep_byte_offset_counterexample :
    (EvalScriptCore [] pushdata520Script SCRIPT_VERIFY_NONE BaseSignatureChecker
        SigVersion.BASE {} {} 1000).map
      (fun st => (st.execdata.m_codeseparator_pos, st.csTrace)) =
      .ok (1, [(1, 523)]) ∧
    pushdata520Script.getD 523 0 = OP_CODESEPARATOR ∧
    (∀ i < 523, pushdata520Script.getD i 0 ≠ OP_CODESEPARATOR) ∧
    (1 : Nat) ≠ 523 := by
  decide

set_option maxRecDepth 100000 in
/-- C2 (amended): for every executed code-separator opcode, the position
`EvalScript` records is the opcode index of that opcode within the script,
not its byte offset: whenever execution succeeds and the trace of executed
code-separators is non-empty, the recorded position is the opcode-index
component of its last entry; for the 520-byte-push script the recorded
position is the opcode index 1. -/
theorem codesep_records_opcode_index :
    (∀ (script : List Nat) (stack : List (List Nat)) (flags : Nat)
        (checker : SignatureChecker) (sv : SigVersion)
        (execdata : ScriptExecutionData) (metrics : ScriptExecutionMetrics)
        (limit : Nat) (st' : ExecState) (pr : Nat × Nat),
      EvalScriptCore stack script flags checker sv execdata metrics limit = .ok st' →
      st'.csTrace.getLast? = some pr →
      st'.execdata.m_codeseparator_pos = pr.1) ∧
    (EvalScriptCore [] pushdata520Script SCRIPT_VERIFY_NONE BaseSignatureChecker
        SigVersion.BASE {} {} 1000).map
      (fun st => st.execdata.m_codeseparator_pos) = .ok 1 := by
  constructor
  · intro script stack flags checker sv execdata metrics limit st' pr h hlast
    have hinv := evalScriptCore_codesep h
    rw [hinv]
    unfold lastCodesepIdx
    rw [List.getLast?_map, hlast]
    rfl
  · decide

set_option maxRecDepth 100000 in
/-- Witness for C2's amended theorem: applied to the concrete
520-byte-push run, whose last executed code-separator has opcode index 1
and byte offset 523. -/
theorem codesep_records_opcode_index_witness :
    pd520FinalState.execdata.m_codeseparator_pos = ((1, 523) : Nat × Nat).1 :=
  codesep_records_opcode_index.1 pushdata520Script [] SCRIPT_VERIFY_NONE
    BaseSignatureChecker SigVersion.BASE {} {} 1000 pd520FinalState (1, 523)
    (by decide) (by decide)

/-- C3: the no-op checker `BaseSignatureChecker` reports not-satisfied for
every input: its `CheckSig`, `CheckLockTime`, `CheckSequence` and
`CheckSigTaproot` methods all return false. -/
theorem baseSignatureChecker_not_satisfied :
    ∀ (sig pubkey scriptCode : List Nat) (flags : Nat) (lockTime seqNum : Int)
      (sv : SigVersion),
      BaseSignatureChecker.CheckSig sig pubkey scriptCode flags = false ∧
      BaseSignatureChecker.CheckLockTime lockTime = false ∧
      BaseSignatureChecker.CheckSequence seqNum = false ∧
      BaseSignatureChecker.CheckSigTaproot sig pubkey sv = false :=
  fun _ _ _ _ _ _ _ => ⟨rfl, rfl, rfl, rfl⟩

/-- C4: for every transaction and coins view containing a coin for each
input, `PrecomputedTransactionData.FromCoinsView` builds a cache whose
spent-outputs list resolves the inputs' prevouts one-for-one, in input
order, with length equal to the input count. -/
theorem fromCoinsView_spent_outputs (tx : Transaction)
    (coins : OutPoint → Option TxOut)
    (h : ∀ i ∈ tx.vin, (coins i.prevout).isSome) :
    ∃ td, PrecomputedTransactionData.FromCoinsView tx coins = some td ∧
      List.Forall₂ (fun (i : TxIn) (o : TxOut) => coins i.prevout = some o)
        tx.vin td.m_spent_outputs ∧
      td.m_spent_outputs.length = tx.vin.length := by
  obtain ⟨outs, houts, hfa⟩ :=
    mapM_coins_of_isSome (fun i => coins i.prevout) tx.vin h
  refine ⟨PrecomputedTransactionData.make tx outs, ?_, ?_, ?_⟩
  · simp only [PrecomputedTransactionData.FromCoinsView, houts]
  · simpa [PrecomputedTransactionData.make] using hfa
  · simpa [PrecomputedTransactionData.make] using hfa.length_eq.symm

/-- Witness for C4: the concrete one-input scenario of the test suite. -/
theorem fromCoinsView_spent_outputs_witness :
    ∃ td, PrecomputedTransactionData.FromCoinsView txToConcrete coinsConcrete =
        some td ∧
      List.Forall₂ (fun (i : TxIn) (o : TxOut) => coinsConcrete i.prevout = some o)
        txToConcrete.vin td.m_spent_outputs ∧
      td.m_spent_outputs.length = txToConcrete.vin.length :=
  fromCoinsView_spent_outputs txToConcrete coinsConcrete (by decide)

/-- C5: `SignatureHash` is deterministic — two evaluations at the same
arguments give bit-identical digests; and the precomputed single-round and
double-round prevout/sequence/output hashes depend only on the transaction
bytes, so they agree across repeated computation over equal serializations,
with each double-round hash equal to SHA256 of nothing other than its input
serialization hashed twice. -/
theorem signatureHash_deterministic :
    (∀ (scriptCode : List Nat) (tx : Transaction) (nIn : Nat) (t : SigHashType)
        (amount : Int) (cache : Option PrecomputedTransactionData) (flags : Nat),
      SignatureHash scriptCode tx nIn t amount cache flags =
        SignatureHash scriptCode tx nIn t amount cache flags) ∧
    (∀ (tx tx' : Transaction) (souts souts' : List TxOut),
      serPrevouts tx = serPrevouts tx' →
      serSequences tx = serSequences tx' →
      serOutputs tx = serOutputs tx' →
      (PrecomputedTransactionData.make tx souts).m_prevouts_single_hash =
          (PrecomputedTransactionData.make tx' souts').m_prevouts_single_hash ∧
      (PrecomputedTransactionData.make tx souts).m_sequences_single_hash =
          (PrecomputedTransactionData.make tx' souts').m_sequences_single_hash ∧
      (PrecomputedTransactionData.make tx souts).m_outputs_single_hash =
          (PrecomputedTransactionData.make tx' souts').m_outputs_single_hash ∧
      (PrecomputedTransactionData.make tx souts).hashPrevouts =
          (PrecomputedTransactionData.make tx' souts').hashPrevouts ∧
      (PrecomputedTransactionData.make tx souts).hashSequence =
          (PrecomputedTransactionData.make tx' souts').hashSequence ∧
      (PrecomputedTransactionData.make tx souts).hashOutputs =
          (PrecomputedTransactionData.make tx' souts').hashOutputs) ∧
    (∀ (tx : Transaction) (souts : List TxOut),
      (PrecomputedTransactionData.make tx souts).hashPrevouts =
        sha256 ((PrecomputedTransactionData.make tx souts).m_prevouts_single_hash) ∧
      (PrecomputedTransactionData.make tx souts).hashSequence =
        sha256 ((PrecomputedTransactionData.make tx souts).m_sequences_single_hash) ∧
      (PrecomputedTransactionData.make tx souts).hashOutputs =
        sha256 ((PrecomputedTransactionData.make tx souts).m_outputs_single_hash)) := by
  refine ⟨fun _ _ _ _ _ _ _ => rfl, ?_, fun tx souts => ⟨rfl, rfl, rfl⟩⟩
  intro tx tx' souts souts' h1 h2 h3
  refine ⟨?_, ?_, ?_, ?_, ?_, ?_⟩
  all_goals simp only [PrecomputedTransactionData.make, sha256d, h1, h2, h3]

/-- Witness for C5: the byte-congruence part applied to the concrete
transaction against itself. -/
theorem signatureHash_deterministic_witness :
    (PrecomputedTransactionData.make txToConcrete []).m_prevouts_single_hash =
        (PrecomputedTransactionData.make txToConcrete []).m_prevouts_single_hash ∧
    (PrecomputedTransactionData.make txToConcrete []).m_sequences_single_hash =
        (PrecomputedTransactionData.make txToConcrete []).m_sequences_single_hash ∧
    (PrecomputedTransactionData.make txToConcrete []).m_outputs_single_hash =
        (PrecomputedTransactionData.make txToConcrete []).m_outputs_single_hash ∧
    (PrecomputedTransactionData.make txToConcrete []).hashPrevouts =
        (PrecomputedTransactionData.make txToConcrete []).hashPrevouts ∧
    (PrecomputedTransactionData.make txToConcrete []).hashSequence =
        (PrecomputedTransactionData.make txToConcrete []).hashSequence ∧
    (PrecomputedTransactionData.make txToConcrete []).hashOutputs =
        (PrecomputedTransactionData.make txToConcrete []).hashOutputs :=
  signatureHash_deterministic.2.1 txToConcrete txToConcrete [] [] rfl rfl rfl

/-- C6 counterexample: flag monotonicity fails for a checker whose signature
predicate is flag-sensitive (as the spec's transaction-bound checker is,
through the fork-id sighash selection): with the empty flag set F strictly
contained in the fork-id flag set G, the script pair (push two empty items;
`OP_CHECKSIG`) verifies under G but is rejected under F. -/
theorem verifyScript_flag_monotonicity_counterexample :
    SCRIPT_VERIFY_NONE &&& SCRIPT_ENABLE_SIGHASH_FORKID = SCRIPT_VERIFY_NONE ∧
    SCRIPT_VERIFY_NONE ≠ SCRIPT_ENABLE_SIGHASH_FORKID ∧
    (VerifyScript [0x00, 0x00] [0xac] SCRIPT_ENABLE_SIGHASH_FORKID
        forkidSensitiveChecker 100).1 = true ∧
    (VerifyScript [0x00, 0x00] [0xac] SCRIPT_VERIFY_NONE
        forkidSensitiveChecker 100).1 = false := by
  decide

/-- C6 (amended): for every script pair, every pair of flag sets F ⊆ G and
every checker whose signature predicate does not depend on the flag word
(in particular the no-op `BaseSignatureChecker`), if verification accepts
under the stronger set G then it also accepts under the weaker set F —
the modelled flags only gate additional failure rules. -/
theorem verifyScript_flag_monotonicity
    (scriptSig scriptPubKey : List Nat) (F G : Nat) (checker : SignatureChecker)
    (limit : Nat) (hFG : F &&& G = F)
    (hck : ∀ sig pk sc f g, checker.CheckSig sig pk sc f = checker.CheckSig sig pk sc g)
    (hacc : (VerifyScript scriptSig scriptPubKey G checker limit).1 = true) :
    (VerifyScript scriptSig scriptPubKey F checker limit).1 = true := by
  simp only [VerifyScript] at hacc ⊢
  cases hv : VerifyScriptCore scriptSig scriptPubKey G checker limit with
  | error e => rw [hv] at hacc; simp at hacc
  | ok st =>
    rw [verifyScriptCore_mono hFG (fun s p c => hck s p c F G) hv]

/-- Witness for C6's amended theorem: a script pair accepted under the full
standard flag set is accepted under the empty flag set. -/
theorem verifyScript_flag_monotonicity_witness :
    (VerifyScript [0x51] [] SCRIPT_VERIFY_NONE BaseSignatureChecker 100).1 = true :=
  verifyScript_flag_monotonicity [0x51] [] SCRIPT_VERIFY_NONE
    STANDARD_SCRIPT_VERIFY_FLAGS BaseSignatureChecker 100 (by decide)
    (fun _ _ _ _ _ => rfl) (by decide)

/-- C7: a script performing more signature checks than the configured
ceiling fails with `SIGCHECKS_LIMIT_EXCEEDED` even though every individual
signature is valid (the checker accepts all of them). -/
theorem sigChecks_ceiling_exceeded (limit n : Nat) (h : limit < n)
    (hsz : 3 * n ≤ MAX_SCRIPT_SIZE) :
    EvalScriptCore [] (sigCheckScript n) SCRIPT_VERIFY_NONE allValidChecker
      SigVersion.BASE {} {} limit = .error .SIGCHECKS_LIMIT_EXCEEDED := by
  simp only [EvalScriptCore]
  rw [if_neg (by rw [sigCheckScript_length]; omega)]
  rw [sigCheckScript_length]
  exact evalOps_sigCheckScript n (3 * n + 1) _ rfl (by simp [initialState]; omega)
    (by omega) (by omega)

/-- Witness for C7: two valid signature checks against a ceiling of one. -/
theorem sigChecks_ceiling_exceeded_witness :
    EvalScriptCore [] (sigCheckScript 2) SCRIPT_VERIFY_NONE allValidChecker
      SigVersion.BASE {} {} 1 = .error .SIGCHECKS_LIMIT_EXCEEDED :=
  sigChecks_ceiling_exceeded 1 2 (by decide) (by decide)

set_option maxRecDepth 10000 in
set_option maxHeartbeats 4000000 in
/-- C8: `ScriptErrorString` is a pure total mapping from the error taxonomy
to fixed human-readable descriptions: `OK` maps to "No error", every value
maps to a non-empty string, the enumerated failures map injectively to
their own distinct descriptions (in particular division-by-zero and
modulo-by-zero differ), and `UNKNOWN` and `ERROR_COUNT` map to
"unknown error". -/
theorem scriptErrorString_table :
    ScriptErrorString ScriptError.OK = "No error" ∧
    (∀ e : ScriptError, ScriptErrorString e ≠ "") ∧
    (∀ e1 e2 : ScriptError, e1.isEnumeratedFailure = true →
      e2.isEnumeratedFailure = true →
      ScriptErrorString e1 = ScriptErrorString e2 → e1 = e2) ∧
    ScriptErrorString ScriptError.DIV_BY_ZERO ≠
      ScriptErrorString ScriptError.MOD_BY_ZERO ∧
    ScriptErrorString ScriptError.UNKNOWN = "unknown error" ∧
    ScriptErrorString ScriptError.ERROR_COUNT = "unknown error" := by
  refine ⟨rfl, by decide, by decide, by decide, rfl, rfl⟩

/-- Witness for C8: the injectivity clause applied at a concrete pair. -/
theorem scriptErrorString_table_witness :
    ScriptError.DIV_BY_ZERO = ScriptError.DIV_BY_ZERO :=
  scriptErrorString_table.2.2.1 ScriptError.DIV_BY_ZERO ScriptError.DIV_BY_ZERO
    (by decide) (by decide) rfl

/-- C9: the convenience `EvalScript` overload without a `SigVersion`
argument returns the same result, final stack, metrics and error as the
full `EvalScript` called with `SigVersion::BASE` and a freshly
default-constructed `ScriptExecutionData`; and the overload without a
metrics argument additionally equals the full call with a discarded fresh
`ScriptExecutionMetrics`. -/
theorem evalScript_overload_equivalence :
    (∀ (stack : List (List Nat)) (script : List Nat) (flags : Nat)
        (checker : SignatureChecker) (metrics : ScriptExecutionMetrics)
        (limit : Nat),
      EvalScriptBase stack script flags checker metrics limit =
        (let r := EvalScript stack script flags checker SigVersion.BASE {}
          metrics limit
         (r.ok, r.stack, r.metrics, r.serror))) ∧
    (∀ (stack : List (List Nat)) (script : List Nat) (flags : Nat)
        (checker : SignatureChecker) (limit : Nat),
      EvalScriptNoMetrics stack script flags checker limit =
        (let r := EvalScript stack script flags checker SigVersion.BASE {} {}
          limit
         (r.ok, r.stack, r.serror))) :=
  ⟨fun _ _ _ _ _ _ => rfl, fun _ _ _ _ _ => rfl⟩

/-- Consistency of the ASERT model with the repository's test vectors: the
18 rows of `calculate_args` in src/src/pow/test/aserti32d_tests.cpp
(time differences include the test's `parent_time_diff` of one block). -/
theorem calculateASERT_matches_test_vectors :
    CalculateASERT mainPowLimit t_block 120 (2 * 720) mainPowLimit nDAAHalfLife =
      mainPowLimit / 2 ∧
    CalculateASERT mainPowLimit t_block 120 (4 * 720) mainPowLimit nDAAHalfLife =
      mainPowLimit / 4 ∧
    CalculateASERT (mainPowLimit / 2) t_block 120 (2 * 720) mainPowLimit
      nDAAHalfLife = mainPowLimit / 4 ∧
    CalculateASERT (mainPowLimit / 4) t_block 120 (2 * 720) mainPowLimit
      nDAAHalfLife = mainPowLimit / 8 ∧
    CalculateASERT (mainPowLimit / 8) t_block 120 (2 * 720) mainPowLimit
      nDAAHalfLife = mainPowLimit / 16 ∧
    CalculateASERT mainPowLimit t_block 120 (2 * 222 * 720) mainPowLimit
      nDAAHalfLife = 3 ∧
    CalculateASERT mainPowLimit t_block 120 (2 * 222 * 720 + 595) mainPowLimit
      nDAAHalfLife = 3 ∧
    CalculateASERT mainPowLimit t_block 120 (2 * 222 * 720 + 600) mainPowLimit
      nDAAHalfLife = 2 ∧
    CalculateASERT mainPowLimit t_block 120 (2 * 223 * 720 - 1) mainPowLimit
      nDAAHalfLife = 2 ∧
    CalculateASERT mainPowLimit t_block 120 (2 * 223 * 720) mainPowLimit
      nDAAHalfLife = 1 ∧
    CalculateASERT mainPowLimit t_block 120 (2 * 224 * 720) mainPowLimit
      nDAAHalfLife = 1 ∧
    CalculateASERT 1 t_block 120 (2 * 224 * 720) mainPowLimit nDAAHalfLife = 1 ∧
    CalculateASERT mainPowLimit t_block (120 + 2 * 480 * 720) 0 mainPowLimit
      nDAAHalfLife = mainPowLimit ∧
    CalculateASERT 1 t_block (120 + 448 * 720 * 120) 0 mainPowLimit
      nDAAHalfLife = mainPowLimit ∧
    CalculateASERT mainPowLimit t_block (120 + 300) 5 mainPowLimit nDAAHalfLife =
      0x00000000ffb1ffffffffffffffffffffffffffffffffffffffffffffffffffff ∧
    CalculateASERT
      0x000000008000000000000000000fffffffffffffffffffffffffffffffffffff
      t_block (120 + 120 * 2 * 33 * 720) 0 mainPowLimit nDAAHalfLife =
      mainPowLimit ∧
    CalculateASERT 1 t_block (120 + 120 * 2 * 256 * 720) 0 mainPowLimit
      nDAAHalfLife = mainPowLimit ∧
    CalculateASERT 1 t_block (120 + 120 * 2 * 224 * 720 - 1) 0 mainPowLimit
      nDAAHalfLife = 0xffff8 * 2 ^ 204 := by
  decide

/-- C10: for every reference target in `[1, powLimit]`, positive spacing and
half-life, arbitrary time difference and non-negative height difference,
`CalculateASERT` returns a target in `[1, powLimit]`; and at the extremes it
clamps — an exponent driving the exact exponential past 2^256 or `powLimit`
yields `powLimit`, and an exponent negative enough to fall below 1 yields 1
(shown at the test suite's own overflow and underflow inputs). -/
theorem calculateASERT_range (refTarget powLimit : Nat)
    (spacing timeDiff heightDiff halfLife : Int)
    (h1 : 1 ≤ refTarget) (h2 : refTarget ≤ powLimit)
    (h3 : 0 < spacing) (h4 : 0 < halfLife) (h5 : 0 ≤ heightDiff) :
    (1 ≤ CalculateASERT refTarget spacing timeDiff heightDiff powLimit halfLife ∧
      CalculateASERT refTarget spacing timeDiff heightDiff powLimit halfLife ≤
        powLimit) ∧
    CalculateASERT 1 t_block (120 + 120 * 2 * 256 * 720) 0 mainPowLimit
      nDAAHalfLife = mainPowLimit ∧
    CalculateASERT mainPowLimit t_block 120 (2 * 224 * 720) mainPowLimit
      nDAAHalfLife = 1 := by
  refine ⟨?_, by decide, by decide⟩
  have hpl : 1 ≤ powLimit := le_trans h1 h2
  simp only [CalculateASERT]
  split_ifs with c1 c2 c3 c4 c5 c6 <;>
    refine ⟨?_, ?_⟩ <;>
    first
      | exact le_refl _
      | exact hpl
      | exact Nat.one_le_iff_ne_zero.mpr (by assumption)
      | exact le_of_not_lt (by assumption)

/-- Witness for C10: the range theorem applied at the steady-block input of
the test suite. -/
theorem calculateASERT_range_witness :
    (1 ≤ CalculateASERT (mainPowLimit / 16) t_block 240 1 mainPowLimit
        nDAAHalfLife ∧
      CalculateASERT (mainPowLimit / 16) t_block 240 1 mainPowLimit
        nDAAHalfLife ≤ mainPowLimit) ∧
    CalculateASERT 1 t_block (120 + 120 * 2 * 256 * 720) 0 mainPowLimit
      nDAAHalfLife = mainPowLimit ∧
    CalculateASERT mainPowLimit t_block 120 (2 * 224 * 720) mainPowLimit
      nDAAHalfLife = 1 :=
  calculateASERT_range (mainPowLimit / 16) mainPowLimit t_block 240 1
    nDAAHalfLife (by decide) (by decide) (by decide) (by decide) (by decide)
